import Mathlib

/-!
Verification of the LLM gateway of the resumeiq backend (`llm_adapter.py`).

The module is embedded shallowly:

* Python raises are modelled as `Except.error ()`; every call site of the
  original program that catches an exception is mirrored by an explicit
  `match` on the `Except` value.
* `time.time()` is passed in explicitly as a rational `now`; Python floats
  are modelled as exact rationals.
* The `shelve` cache file is an association list plus two flags saying
  whether the store raises on read (`cacheGetRaises`) and on write
  (`cachePutRaises`).
* The remote provider SDK calls are oracle functions supplied in an
  environment `Env`; configuration checks (SDK imported, API key set) are
  boolean fields of the same environment.
* Besides the returned text, the router produces the list of effect
  `Event`s it performed (cache reads and writes, rate-limiter token
  consumptions, provider invocations) and the resulting cache contents,
  so that frame claims (no provider invoked, no token consumed, nothing
  written) can be stated as facts about the trace.
-/

namespace LlmAdapter

/-- Rate limiter state, from `class TokenBucket`.  The `threading.Lock`
field serializes `consume`; the embedding is sequential so the lock has no
observable content here.  `last` holds the `time.time()` value of the
previous call. -/
structure TokenBucket where
  capacity : ℚ
  tokens : ℚ
  rate : ℚ
  last : ℚ
  deriving DecidableEq

/-- Constructor `TokenBucket.__init__(rpm)` executed at wall-clock time `now`:
capacity and initial tokens are `rpm`, the refill rate is `rpm / 60`
tokens per second. -/
def TokenBucket.init (rpm : ℚ) (now : ℚ) : TokenBucket :=
  { capacity := rpm, tokens := rpm, rate := rpm / 60, last := now }

/-- Method `TokenBucket.consume(n)` called at wall-clock time `now`: refill by
`delta * rate` capped at `capacity`, stamp `last := now`, then take `n`
tokens if available.  Returns the Python boolean and the updated state. -/
def TokenBucket.consume (b : TokenBucket) (now : ℚ) (n : ℚ) : Bool × TokenBucket :=
  let delta := now - b.last
  let refilled := min b.capacity (b.tokens + delta * b.rate)
  if refilled ≥ n then
    (true, { capacity := b.capacity, tokens := refilled - n, rate := b.rate, last := now })
  else
    (false, { capacity := b.capacity, tokens := refilled, rate := b.rate, last := now })

/-- Modelled from the spec, for comparison with `TokenBucket.consume`:
on each call compute the elapsed time since the last refill timestamp,
add `elapsed * refillRatePerSecond` tokens capped at `capacityTokens`,
update the timestamp, then if the current tokens are at least `n`
subtract `n` and return true, otherwise return false. -/
def consumeSpec (b : TokenBucket) (now : ℚ) (n : ℚ) : Bool × TokenBucket :=
  let elapsed := now - b.last
  let current := min b.capacity (b.tokens + elapsed * b.rate)
  if current ≥ n then
    (true, { capacity := b.capacity, tokens := current - n, rate := b.rate, last := now })
  else
    (false, { capacity := b.capacity, tokens := current, rate := b.rate, last := now })

/-- Run a sequence of `consume(1)` calls, one at each wall-clock time in
the list, returning the list of results and the final bucket state. -/
def consumeRun (b : TokenBucket) : List ℚ → List Bool × TokenBucket
  | [] => ([], b)
  | t :: ts =>
    let r := b.consume t 1
    let rest := consumeRun r.2 ts
    (r.1 :: rest.1, rest.2)

/-- Function `_cache_key(prompt, task, model)` hashes the string
`f"{task}|{model}|{prompt}"` with SHA-256 and returns its hex digest.
SHA-256 is deterministic and the claims about the key factor out hash
collisions, so the key is modelled by the encoded pre-image itself:
two keys are equal modulo SHA-256 collisions iff the pre-images are
equal. -/
def _cache_key (prompt task model : String) : String :=
  task ++ "|" ++ model ++ "|" ++ prompt

/-- The set `STRICT_JSON_TASKS`, a Python set literal of seven task tags. -/
def STRICT_JSON_TASKS : List String :=
  ["recruiter_eval", "profile_structuring", "achievement_rewrite",
   "resume_generation", "cover_letter_generation", "portfolio_generation",
   "ats_analysis"]

/-- Function `simulated_response(prompt, task)`: a JSON stub for strict-JSON tasks,
otherwise the fixed marker string.  `prompt` is accepted and ignored, as
in the source. -/
def simulated_response (_prompt task : String) : String :=
  if task ∈ STRICT_JSON_TASKS then
    "\x7b\"status\":\"simulated\",\"task\":\"" ++ task ++ "\"\x7d"
  else
    "SIMULATED RESPONSE"

/-- The request body `_call_groq` builds for
`client.chat.completions.create`: messages are (role, content) pairs and
the `response_format` dict is abbreviated to its `type` value. -/
structure GroqRequest where
  model : String
  messages : List (String × String)
  temperature : ℚ
  response_format : String
  deriving DecidableEq

def GROQ_SYSTEM_MESSAGE : String := "You must respond with valid JSON only."

/-- The request `_call_groq(prompt, model)` sends once configuration and
rate-limit checks have passed. -/
def groqRequest (prompt : String) (model : String) : GroqRequest :=
  { model := model
    messages := [("system", GROQ_SYSTEM_MESSAGE), ("user", prompt)]
    temperature := 3 / 10
    response_format := "json_object" }

/-- Python `x or default` on an optional string: `None` and the empty
string are falsy and select the default. -/
def pyOr (s : Option String) (dflt : String) : String :=
  match s with
  | none => dflt
  | some v => if v = "" then dflt else v

/-- Observable effects of one router call, in program order. -/
inductive Event where
  | cacheRead (key : String)
  | consumeToken (granted : Bool)
  | geminiCall (prompt : String) (model : String)
  | groqCall (req : GroqRequest)
  | cacheWrite (key : String) (text : String)
  deriving DecidableEq

/-- Environment of one router call: module-level configuration
(`GEMINI_MODEL`, `GROQ_MODEL`, SDK and API-key availability), oracles for
the two remote endpoints, the current cache file contents, and whether
the cache store raises on read or on write. -/
structure Env where
  GEMINI_MODEL : String
  GROQ_MODEL : String
  geminiConfigured : Bool
  groqConfigured : Bool
  geminiRemote : String → String → Except Unit String
  groqRemote : GroqRequest → Except Unit String
  cacheEntries : List (String × String)
  cacheGetRaises : Bool
  cachePutRaises : Bool

/-- Association-list lookup, first binding wins; `shelve` key membership
and `db[key]` reads are modelled through it. -/
def cacheLookup : List (String × String) → String → Option String
  | [], _ => none
  | (k, v) :: rest, key => if k = key then some v else cacheLookup rest key

/-- The cache read of the router: a raising store behaves like a miss
because the surrounding `try` swallows the exception with `pass`. -/
def cacheGetResult (env : Env) (key : String) : Option String :=
  if env.cacheGetRaises then none else cacheLookup env.cacheEntries key

/-- Result of one provider-adapter attempt: the Python return value or
raise, the rate limiter afterwards, and the events performed. -/
structure Attempt where
  res : Except Unit String
  bucket : TokenBucket
  events : List Event

/-- Adapter `_call_gemini(prompt, model)`: raise unless the SDK and API key are
present, raise if the shared bucket denies a token, otherwise call the
remote endpoint with `model or GEMINI_MODEL` and the given prompt. -/
def _call_gemini (env : Env) (b : TokenBucket) (now : ℚ) (prompt : String)
    (model : Option String) : Attempt :=
  if env.geminiConfigured = false then ⟨.error (), b, []⟩
  else
    match b.consume now 1 with
    | (false, b') => ⟨.error (), b', [.consumeToken false]⟩
    | (true, b') =>
      let m := pyOr model env.GEMINI_MODEL
      ⟨env.geminiRemote prompt m, b', [.consumeToken true, .geminiCall prompt m]⟩

/-- Adapter `_call_groq(prompt, model)`: raise unless the SDK and API key are
present, raise if the shared bucket denies a token, otherwise send the
fixed JSON-only chat request and `.strip()` the returned content. -/
def _call_groq (env : Env) (b : TokenBucket) (now : ℚ) (prompt : String)
    (model : Option String) : Attempt :=
  if env.groqConfigured = false then ⟨.error (), b, []⟩
  else
    match b.consume now 1 with
    | (false, b') => ⟨.error (), b', [.consumeToken false]⟩
    | (true, b') =>
      let req := groqRequest prompt (pyOr model env.GROQ_MODEL)
      ⟨(env.groqRemote req).map String.trim, b', [.consumeToken true, .groqCall req]⟩

/-- One iteration body of the failover loop: dispatch on the provider
name exactly as `if p == "gemini": ... else: ...` does. -/
def attempt (env : Env) (now : ℚ) (prompt : String) (model_override : Option String)
    (p : String) (b : TokenBucket) : Attempt :=
  if p = "gemini" then _call_gemini env b now prompt model_override
  else _call_groq env b now prompt model_override

/-- The ordering `["gemini", "groq"] if prefer != "groq" else ["groq", "gemini"]`. -/
def providerOrdering (prefer : Option String) : List String :=
  if prefer ≠ some "groq" then ["gemini", "groq"] else ["groq", "gemini"]

/-- The strict-JSON prompt preparation of the router: the two adjacent
literals of the source concatenate to this preamble. -/
def JSON_PREAMBLE : String :=
  "SYSTEM: Respond ONLY with valid JSON. No markdown. No explanations.\n\n"

def wrappedPrompt (prompt task : String) : String :=
  if task ∈ STRICT_JSON_TASKS then JSON_PREAMBLE ++ prompt else prompt

/-- The model the router resolves before computing the cache key:
`model_override or (GEMINI_MODEL if prefer != "groq" else GROQ_MODEL)`. -/
def resolvedModel (env : Env) (prefer : Option String)
    (model_override : Option String) : String :=
  pyOr model_override
    (if prefer ≠ some "groq" then env.GEMINI_MODEL else env.GROQ_MODEL)

/-- Outcome of one router call: returned text, rate limiter afterwards,
events in order, and the final cache contents. -/
structure RouterResult where
  text : String
  bucket : TokenBucket
  events : List Event
  cache : List (String × String)
  deriving DecidableEq

/-- The failover loop of `call_llm_router`.  The cache write sits inside
the same `try` block as the provider call, so when the store raises on
write the exception is caught by the provider-failure handler and the
loop advances to the next provider, discarding the successful result. -/
def tryProviders (env : Env) (now : ℚ) (prompt : String)
    (model_override : Option String) (key : String) :
    List String → TokenBucket → List Event → RouterResult
  | [], b, evs => ⟨"SYSTEM OVERLOAD", b, evs, env.cacheEntries⟩
  | p :: rest, b, evs =>
    let a := attempt env now prompt model_override p b
    match a.res with
    | .error _ =>
      tryProviders env now prompt model_override key rest a.bucket (evs ++ a.events)
    | .ok result =>
      if env.cachePutRaises then
        tryProviders env now prompt model_override key rest a.bucket (evs ++ a.events)
      else
        ⟨result, a.bucket, evs ++ a.events ++ [.cacheWrite key result],
         (key, result) :: env.cacheEntries⟩

/-- Router `call_llm_router(prompt, task, use_simulation, prefer, model_override)`:
simulation short-circuit, model resolution, cache-key computation, cache
lookup with swallowed read errors, strict-JSON wrapping, then the
failover loop over the provider ordering. -/
def call_llm_router (env : Env) (b : TokenBucket) (now : ℚ) (prompt : String)
    (task : String) (use_simulation : Bool) (prefer : Option String)
    (model_override : Option String) : RouterResult :=
  if use_simulation then ⟨simulated_response prompt task, b, [], env.cacheEntries⟩
  else
    let model := resolvedModel env prefer model_override
    let key := _cache_key prompt task model
    match cacheGetResult env key with
    | some v => ⟨v, b, [.cacheRead key], env.cacheEntries⟩
    | none =>
      tryProviders env now (wrappedPrompt prompt task) model_override key
        (providerOrdering prefer) b [.cacheRead key]

/-- The content of the `user` message of a Groq request: the prompt the
router handed to `_call_groq`. -/
def GroqRequest.userContent (r : GroqRequest) : String :=
  (r.messages.getD 1 ("", "")).2

/-- The prompt a provider-invocation event delivered to the remote
endpoint; `none` for non-invocation events. -/
def Event.sentPrompt : Event → Option String
  | .geminiCall p _ => some p
  | .groqCall req => some req.userContent
  | _ => none

/-- The provider an event belongs to; `none` for cache and rate-limiter
events. -/
def Event.providerOf : Event → Option String
  | .geminiCall _ _ => some "gemini"
  | .groqCall _ => some "groq"
  | _ => none

/-- Concrete test environment: both SDKs configured, both remotes
succeed, empty writable cache store. -/
def envBothOk : Env :=
  { GEMINI_MODEL := "gemini-2.5-flash"
    GROQ_MODEL := "llama-3.1-8b-instant"
    geminiConfigured := true
    groqConfigured := true
    geminiRemote := fun _ _ => .ok "G"
    groqRemote := fun _ => .ok "Q"
    cacheEntries := []
    cacheGetRaises := false
    cachePutRaises := false }

/-- Concrete test environment whose cache store already holds an entry
for the key of prompt "p", task "general" and the default Gemini model. -/
def envCached : Env :=
  { envBothOk with
    cacheEntries := [(_cache_key "p" "general" "gemini-2.5-flash", "CACHED")] }

/-! Helper lemmas about one provider attempt and the failover loop. -/

/-- Case analysis of the events one attempt can emit. -/
theorem attempt_event_mem (env : Env) (now : ℚ) (prompt : String)
    (model_override : Option String) (p : String) (b : TokenBucket) {e : Event}
    (he : e ∈ (attempt env now prompt model_override p b).events) :
    e = .consumeToken false ∨ e = .consumeToken true ∨
    (p = "gemini" ∧ e = .geminiCall prompt (pyOr model_override env.GEMINI_MODEL)) ∨
    (p ≠ "gemini" ∧
      e = .groqCall (groqRequest prompt (pyOr model_override env.GROQ_MODEL))) := by
  unfold attempt at he
  by_cases hp : p = "gemini"
  · rw [if_pos hp] at he
    unfold _call_gemini at he
    split at he
    · simp at he
    · split at he <;> simp at he <;> tauto
  · rw [if_neg hp] at he
    unfold _call_groq at he
    split at he
    · simp at he
    · split at he <;> simp at he <;> tauto

/-- When an attempt returns successfully its event list is exactly one
granted token consumption followed by the provider invocation. -/
theorem attempt_ok_events (env : Env) (now : ℚ) (prompt : String)
    (model_override : Option String) (p : String) (b : TokenBucket) {r : String}
    (h : (attempt env now prompt model_override p b).res = .ok r) :
    (attempt env now prompt model_override p b).events =
      if p = "gemini" then
        [.consumeToken true, .geminiCall prompt (pyOr model_override env.GEMINI_MODEL)]
      else
        [.consumeToken true, .groqCall (groqRequest prompt (pyOr model_override env.GROQ_MODEL))] := by
  unfold attempt at h ⊢
  by_cases hp : p = "gemini"
  · rw [if_pos hp] at h ⊢
    rw [if_pos hp]
    unfold _call_gemini at h ⊢
    split at h
    · simp at h
    · split at h <;> simp_all
  · rw [if_neg hp] at h ⊢
    rw [if_neg hp]
    unfold _call_groq at h ⊢
    split at h
    · simp at h
    · split at h <;> simp_all

/-- Every event of the loop result either was already in the
accumulator, was emitted by an attempt of one of the remaining
providers, or is the final cache write. -/
theorem tryProviders_event_mem (env : Env) (now : ℚ) (prompt : String)
    (model_override : Option String) (key : String) :
    ∀ (ps : List String) (b : TokenBucket) (evs : List Event) (e : Event),
      e ∈ (tryProviders env now prompt model_override key ps b evs).events →
      e ∈ evs ∨
      (∃ p ∈ ps, ∃ b', e ∈ (attempt env now prompt model_override p b').events) ∨
      ∃ t, e = .cacheWrite key t
  | [], b, evs, e, he => by
    simp only [tryProviders] at he
    exact Or.inl he
  | p :: rest, b, evs, e, he => by
    simp only [tryProviders] at he
    split at he
    · have := tryProviders_event_mem env now prompt model_override key rest _ _ e he
      rcases this with h | ⟨q, hq, b', hb'⟩ | h
      · rcases List.mem_append.mp h with h | h
        · exact Or.inl h
        · exact Or.inr (Or.inl ⟨p, List.mem_cons_self p rest, b, h⟩)
      · exact Or.inr (Or.inl ⟨q, List.mem_cons_of_mem p hq, b', hb'⟩)
      · exact Or.inr (Or.inr h)
    · split at he
      · have := tryProviders_event_mem env now prompt model_override key rest _ _ e he
        rcases this with h | ⟨q, hq, b', hb'⟩ | h
        · rcases List.mem_append.mp h with h | h
          · exact Or.inl h
          · exact Or.inr (Or.inl ⟨p, List.mem_cons_self p rest, b, h⟩)
        · exact Or.inr (Or.inl ⟨q, List.mem_cons_of_mem p hq, b', hb'⟩)
        · exact Or.inr (Or.inr h)
      · simp only [RouterResult.mk.injEq] at he ⊢
        rcases List.mem_append.mp he with h | h
        · rcases List.mem_append.mp h with h | h
          · exact Or.inl h
          · exact Or.inr (Or.inl ⟨p, List.mem_cons_self p rest, b, h⟩)
        · simp at h
          exact Or.inr (Or.inr ⟨_, h⟩)

/-- If every attempt of every provider fails, the loop falls through to
the sentinel. -/
theorem tryProviders_all_fail (env : Env) (now : ℚ) (prompt : String)
    (model_override : Option String) (key : String)
    (hfail : ∀ (p : String) (b' : TokenBucket),
      (attempt env now prompt model_override p b').res = .error ()) :
    ∀ (ps : List String) (b : TokenBucket) (evs : List Event),
      (tryProviders env now prompt model_override key ps b evs).text = "SYSTEM OVERLOAD"
  | [], _, _ => rfl
  | p :: rest, b, evs => by
    simp only [tryProviders]
    split
    · exact tryProviders_all_fail env now prompt model_override key hfail rest _ _
    · rename_i result heq
      rw [hfail p b] at heq
      cases heq

/-! Lemmas about the cache-key encoding. -/

theorem sep_data : ("|" : String).data = ['|'] := rfl

theorem cache_key_data (p t m : String) :
    (_cache_key p t m).data = t.data ++ '|' :: (m.data ++ '|' :: p.data) := by
  simp [_cache_key, String.data_append, sep_data, List.append_assoc]

/-- Lists agreeing on both sides of a separator character absent from
the two prefixes have equal prefixes and equal suffixes. -/
theorem append_sep_cancel {a₁ a₂ r₁ r₂ : List Char}
    (h₁ : '|' ∉ a₁) (h₂ : '|' ∉ a₂)
    (h : a₁ ++ '|' :: r₁ = a₂ ++ '|' :: r₂) : a₁ = a₂ ∧ r₁ = r₂ := by
  induction a₁ generalizing a₂ with
  | nil =>
    cases a₂ with
    | nil => simpa using h
    | cons d t =>
      simp only [List.nil_append, List.cons_append, List.cons.injEq] at h
      obtain ⟨h1, -⟩ := h
      subst h1
      simp at h₂
  | cons c cs ih =>
    cases a₂ with
    | nil =>
      simp only [List.cons_append, List.nil_append, List.cons.injEq] at h
      obtain ⟨h1, -⟩ := h
      subst h1
      simp at h₁
    | cons d t =>
      simp only [List.cons_append, List.cons.injEq] at h
      obtain ⟨h1, h2⟩ := h
      have hcs : '|' ∉ cs := fun hx => h₁ (List.mem_cons_of_mem c hx)
      have ht : '|' ∉ t := fun hx => h₂ (List.mem_cons_of_mem d hx)
      obtain ⟨e1, e2⟩ := ih hcs ht h2
      exact ⟨by rw [h1, e1], e2⟩

/-! Theorems settling the claims. -/

set_option maxRecDepth 10000 in
/-- C4: `TokenBucket.consume` follows the specified token-bucket
algorithm — on every call with non-negative elapsed time the token count
becomes `min capacity (tokens + elapsed * rate)` with the timestamp
updated, `n` is subtracted exactly when the refilled count reaches `n`
(returning true) and otherwise the count is left at the refilled value
(returning false); concretely, with capacity 60 and refill rate 1
token/second, 60 zero-elapsed consumes succeed, the 61st fails, and
after exactly 1 further elapsed second exactly one more consume succeeds
and the next fails. -/
theorem c4_token_bucket_consume :
    (∀ (b : TokenBucket) (now n : ℚ), b.last ≤ now →
      b.consume now n = consumeSpec b now n) ∧
    (consumeRun (TokenBucket.init 60 0) (List.replicate 61 0 ++ [1, 1])).1 =
      List.replicate 60 true ++ [false, true, false] := by
  constructor
  · intro b now n _
    rfl
  · with_unfolding_all decide

theorem c4_witness :
    (TokenBucket.init 60 0).last ≤ 0 ∧
    (TokenBucket.init 60 0).consume 0 1 = consumeSpec (TokenBucket.init 60 0) 0 1 :=
  ⟨le_refl 0, c4_token_bucket_consume.1 (TokenBucket.init 60 0) 0 1 (le_refl 0)⟩

/-- C6 counterexample: two distinct (task, model, prompt) triples whose
cache-key encodings coincide, because the task of the first contains the
separator character. -/
theorem c6_counterexample :
    _cache_key "d" "a|b" "c" = _cache_key "c|d" "a" "b" ∧
    (("a|b", "c", "d") : String × String × String) ≠ ("a", "b", "c|d") := by
  constructor
  · rfl
  · decide

/-- C6 (amended): the cache key is a deterministic function of the
triple, and the encoding is injective (modulo SHA-256 collisions) on
every pair of triples whose task and model strings avoid the separator
character; triples with the separator inside task or model can collide. -/
theorem c6_cache_key_deterministic_injective :
    (∀ p t m, _cache_key p t m = _cache_key p t m) ∧
    (∀ p₁ t₁ m₁ p₂ t₂ m₂ : String,
      '|' ∉ t₁.data → '|' ∉ m₁.data → '|' ∉ t₂.data → '|' ∉ m₂.data →
      _cache_key p₁ t₁ m₁ = _cache_key p₂ t₂ m₂ →
      t₁ = t₂ ∧ m₁ = m₂ ∧ p₁ = p₂) := by
  refine ⟨fun _ _ _ => rfl, ?_⟩
  intro p₁ t₁ m₁ p₂ t₂ m₂ ht₁ hm₁ ht₂ hm₂ h
  rw [String.ext_iff, cache_key_data, cache_key_data] at h
  obtain ⟨e1, h2⟩ := append_sep_cancel ht₁ ht₂ h
  obtain ⟨e2, e3⟩ := append_sep_cancel hm₁ hm₂ h2
  exact ⟨String.ext e1, String.ext e2, String.ext e3⟩

theorem c6_witness :
    ("resume_generation" : String) = "resume_generation" ∧
    ("gemini-2.5-flash" : String) = "gemini-2.5-flash" ∧
    ("p" : String) = "p" :=
  c6_cache_key_deterministic_injective.2 "p" "resume_generation" "gemini-2.5-flash"
    "p" "resume_generation" "gemini-2.5-flash"
    (by decide) (by decide) (by decide) (by decide) rfl

/-- C8: with `use_simulation` true the router returns the synthetic
payload — the JSON-shaped stub for strict-JSON tasks, the plain marker
otherwise — with the rate limiter, the event trace and the cache exactly
as before the call, whatever the cache may contain. -/
theorem c8_simulation_isolation :
    ∀ (env : Env) (b : TokenBucket) (now : ℚ) (prompt task : String)
      (prefer model_override : Option String),
      call_llm_router env b now prompt task true prefer model_override =
        ⟨if task ∈ STRICT_JSON_TASKS then
            "\x7b\"status\":\"simulated\",\"task\":\"" ++ task ++ "\"\x7d"
          else "SIMULATED RESPONSE",
          b, [], env.cacheEntries⟩ := by
  intro env b now prompt task prefer model_override
  rfl

/-- C3: when the computed key is present in a readable cache store the
router returns the cached text and performs no effect other than the
read — the rate limiter is unchanged (no token consumed), no provider
is invoked, and nothing is written. -/
theorem c3_cache_hit_short_circuit :
    ∀ (env : Env) (b : TokenBucket) (now : ℚ) (prompt task : String)
      (prefer model_override : Option String) (v : String),
      env.cacheGetRaises = false →
      cacheLookup env.cacheEntries
        (_cache_key prompt task (resolvedModel env prefer model_override)) = some v →
      call_llm_router env b now prompt task false prefer model_override =
        ⟨v, b,
         [.cacheRead (_cache_key prompt task (resolvedModel env prefer model_override))],
         env.cacheEntries⟩ := by
  intro env b now prompt task prefer model_override v hget hlook
  have hkey : cacheGetResult env
      (_cache_key prompt task (resolvedModel env prefer model_override)) = some v := by
    rw [cacheGetResult, hget]
    simpa using hlook
  rw [call_llm_router]
  simp only [Bool.false_eq_true, if_false, hkey]

theorem c3_witness :
    envCached.cacheGetRaises = false ∧
    cacheLookup envCached.cacheEntries
      (_cache_key "p" "general" (resolvedModel envCached none none)) = some "CACHED" ∧
    call_llm_router envCached (TokenBucket.init 60 0) 0 "p" "general" false none none =
      ⟨"CACHED", TokenBucket.init 60 0,
       [.cacheRead (_cache_key "p" "general" (resolvedModel envCached none none))],
       envCached.cacheEntries⟩ :=
  ⟨rfl, rfl,
   c3_cache_hit_short_circuit envCached (TokenBucket.init 60 0) 0 "p" "general"
     none none "CACHED" rfl rfl⟩

/-- C2: on the non-simulated path with a cache miss, if every provider
attempt raises, the router returns the fixed sentinel string rather than
raising — the failover loop swallows every attempt error and the
all-failed fall-through is a plain return (the embedding of
`call_llm_router` is a total function precisely because every raise of
the source is caught inside it). -/
theorem c2_total_failure_returns_sentinel :
    ∀ (env : Env) (b : TokenBucket) (now : ℚ) (prompt task : String)
      (prefer model_override : Option String),
      cacheGetResult env
        (_cache_key prompt task (resolvedModel env prefer model_override)) = none →
      (∀ (p : String) (b' : TokenBucket),
        (attempt env now (wrappedPrompt prompt task) model_override p b').res =
          .error ()) →
      (call_llm_router env b now prompt task false prefer model_override).text =
        "SYSTEM OVERLOAD" := by
  intro env b now prompt task prefer model_override hmiss hfail
  rw [call_llm_router]
  simp only [Bool.false_eq_true, if_false, hmiss]
  exact tryProviders_all_fail env now _ model_override _ hfail _ b _

theorem c2_witness :
    cacheGetResult { envBothOk with geminiConfigured := false, groqConfigured := false }
      (_cache_key "p" "general"
        (resolvedModel { envBothOk with geminiConfigured := false, groqConfigured := false }
          none none)) = none ∧
    (call_llm_router { envBothOk with geminiConfigured := false, groqConfigured := false }
      (TokenBucket.init 60 0) 0 "p" "general" false none none).text = "SYSTEM OVERLOAD" :=
  ⟨rfl,
   c2_total_failure_returns_sentinel
     { envBothOk with geminiConfigured := false, groqConfigured := false }
     (TokenBucket.init 60 0) 0 "p" "general" none none rfl
     (fun p b' => by unfold attempt _call_gemini _call_groq; split <;> rfl)⟩

/-- Every prompt delivered to a provider during a non-simulated
cache-miss run is the wrapped prompt the router prepared. -/
theorem router_sentPrompt (env : Env) (b : TokenBucket) (now : ℚ)
    (prompt task : String) (prefer model_override : Option String)
    (hmiss : cacheGetResult env
      (_cache_key prompt task (resolvedModel env prefer model_override)) = none)
    {e : Event}
    (he : e ∈ (call_llm_router env b now prompt task false prefer model_override).events)
    {q : String} (hq : e.sentPrompt = some q) :
    q = wrappedPrompt prompt task := by
  rw [call_llm_router] at he
  simp only [Bool.false_eq_true, if_false, hmiss] at he
  rcases tryProviders_event_mem env now _ model_override _ _ _ _ e he with
    h | ⟨p, -, b', hb'⟩ | ⟨t, ht⟩
  · simp only [List.mem_singleton] at h
    subst h
    simp [Event.sentPrompt] at hq
  · rcases attempt_event_mem env now _ model_override p b' hb' with
      h | h | ⟨-, h⟩ | ⟨-, h⟩ <;> subst h <;>
      simp [Event.sentPrompt, GroqRequest.userContent, groqRequest] at hq <;>
      exact hq.symm
  · subst ht
    simp [Event.sentPrompt] at hq

/-- C5: on the non-simulated cache-miss path, for each of the seven
strict-JSON task tags every prompt handed to a provider adapter is the
fixed JSON-only preamble prepended to the original prompt, and for any
other task string it is the original prompt unchanged. -/
theorem c5_strict_json_wrapping :
    ∀ (env : Env) (b : TokenBucket) (now : ℚ) (prompt task : String)
      (prefer model_override : Option String),
      cacheGetResult env
        (_cache_key prompt task (resolvedModel env prefer model_override)) = none →
      ∀ e ∈ (call_llm_router env b now prompt task false prefer model_override).events,
        ∀ q, e.sentPrompt = some q →
          ((task ∈ ["profile_structuring", "resume_generation", "ats_analysis",
              "cover_letter_generation", "portfolio_generation", "recruiter_eval",
              "achievement_rewrite"] → q = JSON_PREAMBLE ++ prompt) ∧
           (task ∉ ["profile_structuring", "resume_generation", "ats_analysis",
              "cover_letter_generation", "portfolio_generation", "recruiter_eval",
              "achievement_rewrite"] → q = prompt)) := by
  intro env b now prompt task prefer model_override hmiss e he q hq
  have hw := router_sentPrompt env b now prompt task prefer model_override hmiss he hq
  subst hw
  constructor
  · intro hmem
    have hstrict : task ∈ STRICT_JSON_TASKS := by
      simp only [STRICT_JSON_TASKS, List.mem_cons, List.mem_singleton] at hmem ⊢
      tauto
    simp [wrappedPrompt, hstrict]
  · intro hmem
    have hstrict : task ∉ STRICT_JSON_TASKS := by
      simp only [STRICT_JSON_TASKS, List.mem_cons, List.mem_singleton] at hmem ⊢
      tauto
    simp [wrappedPrompt, hstrict]

theorem c5_witness :
    cacheGetResult envBothOk
      (_cache_key "p" "resume_generation" (resolvedModel envBothOk none none)) = none ∧
    Event.geminiCall (JSON_PREAMBLE ++ "p") "gemini-2.5-flash" ∈
      (call_llm_router envBothOk (TokenBucket.init 60 0) 0 "p" "resume_generation"
        false none none).events ∧
    (("resume_generation" : String) ∈ ["profile_structuring", "resume_generation",
        "ats_analysis", "cover_letter_generation", "portfolio_generation",
        "recruiter_eval", "achievement_rewrite"] → JSON_PREAMBLE ++ "p" = JSON_PREAMBLE ++ "p") ∧
    (("resume_generation" : String) ∉ ["profile_structuring", "resume_generation",
        "ats_analysis", "cover_letter_generation", "portfolio_generation",
        "recruiter_eval", "achievement_rewrite"] → JSON_PREAMBLE ++ "p" = "p") :=
  ⟨rfl, by with_unfolding_all decide,
   (c5_strict_json_wrapping envBothOk (TokenBucket.init 60 0) 0 "p" "resume_generation"
      none none rfl (Event.geminiCall (JSON_PREAMBLE ++ "p") "gemini-2.5-flash")
      (by with_unfolding_all decide) (JSON_PREAMBLE ++ "p") rfl).1,
   (c5_strict_json_wrapping envBothOk (TokenBucket.init 60 0) 0 "p" "resume_generation"
      none none rfl (Event.geminiCall (JSON_PREAMBLE ++ "p") "gemini-2.5-flash")
      (by with_unfolding_all decide) (JSON_PREAMBLE ++ "p") rfl).2⟩

/-- C9: the Groq adapter demands JSON-only output on every invocation —
its request always opens with the fixed system message and sets
`response_format` to `json_object` — including, at router level, for
every task string outside the strict-JSON set, whose prompt reaches the
adapter unwrapped. -/
theorem c9_groq_adapter_always_json :
    (∀ (prompt m : String),
      (groqRequest prompt m).messages =
        [("system", "You must respond with valid JSON only."), ("user", prompt)] ∧
      (groqRequest prompt m).response_format = "json_object") ∧
    (∀ (env : Env) (b : TokenBucket) (now : ℚ) (prompt task : String)
      (prefer model_override : Option String),
      task ∉ STRICT_JSON_TASKS →
      ∀ req, Event.groqCall req ∈
          (call_llm_router env b now prompt task false prefer model_override).events →
        req.messages =
          [("system", "You must respond with valid JSON only."), ("user", prompt)] ∧
        req.response_format = "json_object") := by
  refine ⟨fun prompt m => ⟨rfl, rfl⟩, ?_⟩
  intro env b now prompt task prefer model_override htask req hreq
  rw [call_llm_router] at hreq
  simp only [Bool.false_eq_true, if_false] at hreq
  cases hkey : cacheGetResult env
      (_cache_key prompt task (resolvedModel env prefer model_override)) with
  | some v =>
    rw [hkey] at hreq
    simp at hreq
  | none =>
    rw [hkey] at hreq
    rcases tryProviders_event_mem env now _ model_override _ _ _ _ _ hreq with
      h | ⟨p, -, b', hb'⟩ | ⟨t, ht⟩
    · simp at h
    · rcases attempt_event_mem env now _ model_override p b' hb' with
        h | h | ⟨-, h⟩ | ⟨-, h⟩
      · cases h
      · cases h
      · cases h
      · have hr : req = groqRequest (wrappedPrompt prompt task)
            (pyOr model_override env.GROQ_MODEL) := by
          injection h
        rw [hr, wrappedPrompt, if_neg htask]
        exact ⟨rfl, rfl⟩
    · cases ht

theorem c9_witness :
    (("general" : String) ∉ STRICT_JSON_TASKS) ∧
    ((groqRequest "p" "llama-3.1-8b-instant").messages =
      [("system", "You must respond with valid JSON only."), ("user", "p")] ∧
     (groqRequest "p" "llama-3.1-8b-instant").response_format = "json_object") :=
  ⟨by decide,
   c9_groq_adapter_always_json.2 envBothOk (TokenBucket.init 60 0) 0 "p" "general"
     (some "groq") none (by decide) (groqRequest "p" "llama-3.1-8b-instant")
     (by with_unfolding_all decide)⟩

/-- A failing attempt advances the loop to the remaining providers. -/
theorem tryProviders_cons_fail (env : Env) (now : ℚ) (prompt : String)
    (model_override : Option String) (key p : String) (rest : List String)
    (b : TokenBucket) (evs : List Event)
    (h : (attempt env now prompt model_override p b).res = .error ()) :
    tryProviders env now prompt model_override key (p :: rest) b evs =
      tryProviders env now prompt model_override key rest
        (attempt env now prompt model_override p b).bucket
        (evs ++ (attempt env now prompt model_override p b).events) := by
  simp only [tryProviders]
  rw [h]

/-- A successful attempt with a writable cache store ends the loop:
result returned, cache written. -/
theorem tryProviders_cons_ok (env : Env) (now : ℚ) (prompt : String)
    (model_override : Option String) (key p : String) (rest : List String)
    (b : TokenBucket) (evs : List Event) (r : String)
    (h : (attempt env now prompt model_override p b).res = .ok r)
    (hput : env.cachePutRaises = false) :
    tryProviders env now prompt model_override key (p :: rest) b evs =
      ⟨r, (attempt env now prompt model_override p b).bucket,
       evs ++ (attempt env now prompt model_override p b).events ++ [.cacheWrite key r],
       (key, r) :: env.cacheEntries⟩ := by
  simp only [tryProviders]
  rw [h, hput]
  simp

/-- C7: the ordering is `[primary, secondary]`, reversed exactly when
`prefer` names groq; with a cache miss and a writable store, if the
first provider of the ordering fails and the second succeeds the router
returns the output of the second and caches it under the step-3 key so a
lookup on that key finds it; and when the first provider succeeds the
remaining provider is never invoked. -/
theorem c7_failover_ordering_first_success :
    (∀ prefer : Option String, providerOrdering prefer =
        if prefer = some "groq" then ["groq", "gemini"] else ["gemini", "groq"]) ∧
    (∀ (env : Env) (b : TokenBucket) (now : ℚ) (prompt task : String)
      (prefer model_override : Option String) (p₁ p₂ r : String),
      providerOrdering prefer = [p₁, p₂] →
      env.cachePutRaises = false →
      cacheGetResult env
        (_cache_key prompt task (resolvedModel env prefer model_override)) = none →
      (attempt env now (wrappedPrompt prompt task) model_override p₁ b).res = .error () →
      (attempt env now (wrappedPrompt prompt task) model_override p₂
        (attempt env now (wrappedPrompt prompt task) model_override p₁ b).bucket).res =
          .ok r →
      (call_llm_router env b now prompt task false prefer model_override).text = r ∧
      Event.cacheWrite (_cache_key prompt task (resolvedModel env prefer model_override)) r ∈
        (call_llm_router env b now prompt task false prefer model_override).events ∧
      cacheLookup (call_llm_router env b now prompt task false prefer model_override).cache
        (_cache_key prompt task (resolvedModel env prefer model_override)) = some r) ∧
    (∀ (env : Env) (b : TokenBucket) (now : ℚ) (prompt task : String)
      (prefer model_override : Option String) (p₁ p₂ r : String),
      providerOrdering prefer = [p₁, p₂] →
      env.cachePutRaises = false →
      cacheGetResult env
        (_cache_key prompt task (resolvedModel env prefer model_override)) = none →
      (attempt env now (wrappedPrompt prompt task) model_override p₁ b).res = .ok r →
      (call_llm_router env b now prompt task false prefer model_override).text = r ∧
      ∀ e ∈ (call_llm_router env b now prompt task false prefer model_override).events,
        e.providerOf ≠ some p₂) := by
  refine ⟨?_, ?_, ?_⟩
  · intro prefer
    by_cases hp : prefer = some "groq" <;> simp [providerOrdering, hp]
  · intro env b now prompt task prefer model_override p₁ p₂ r hord hput hmiss h₁ h₂
    rw [call_llm_router]
    simp only [Bool.false_eq_true, if_false, hmiss, hord]
    rw [tryProviders_cons_fail _ _ _ _ _ _ _ _ _ h₁,
        tryProviders_cons_ok _ _ _ _ _ _ _ _ _ _ h₂ hput]
    refine ⟨rfl, by simp, by simp [cacheLookup]⟩
  · intro env b now prompt task prefer model_override p₁ p₂ r hord hput hmiss h₁
    have hp₁₂ : (p₁ = "gemini" ∧ p₂ = "groq") ∨ (p₁ = "groq" ∧ p₂ = "gemini") := by
      by_cases hp : prefer = some "groq" <;> simp [providerOrdering, hp] at hord <;>
        tauto
    rw [call_llm_router]
    simp only [Bool.false_eq_true, if_false, hmiss, hord]
    rw [tryProviders_cons_ok _ _ _ _ _ _ _ _ _ _ h₁ hput]
    refine ⟨rfl, ?_⟩
    intro e he
    simp only [List.mem_append, List.mem_singleton] at he
    rcases he with (he | he) | he
    · subst he
      simp [Event.providerOf]
    · rcases attempt_event_mem env now _ model_override p₁ _ he with
        h | h | ⟨hpg, h⟩ | ⟨hpg, h⟩ <;> subst h <;>
        simp only [Event.providerOf] <;>
        rcases hp₁₂ with ⟨hpa, hpb⟩ | ⟨hpa, hpb⟩ <;> subst hpb <;> simp_all
    · subst he
      simp [Event.providerOf]

theorem c7_witness :
    providerOrdering none = ["gemini", "groq"] ∧
    { envBothOk with geminiConfigured := false }.cachePutRaises = false ∧
    cacheGetResult { envBothOk with geminiConfigured := false }
      (_cache_key "p" "general"
        (resolvedModel { envBothOk with geminiConfigured := false } none none)) = none ∧
    (call_llm_router { envBothOk with geminiConfigured := false }
      (TokenBucket.init 60 0) 0 "p" "general" false none none).text = "Q" ∧
    Event.cacheWrite
      (_cache_key "p" "general"
        (resolvedModel { envBothOk with geminiConfigured := false } none none)) "Q" ∈
      (call_llm_router { envBothOk with geminiConfigured := false }
        (TokenBucket.init 60 0) 0 "p" "general" false none none).events ∧
    cacheLookup (call_llm_router { envBothOk with geminiConfigured := false }
        (TokenBucket.init 60 0) 0 "p" "general" false none none).cache
      (_cache_key "p" "general"
        (resolvedModel { envBothOk with geminiConfigured := false } none none)) =
      some "Q" := by
  refine ⟨rfl, rfl, rfl, ?_⟩
  exact c7_failover_ordering_first_success.2.1
    { envBothOk with geminiConfigured := false } (TokenBucket.init 60 0) 0 "p" "general"
    none none "gemini" "groq" "Q" rfl rfl rfl rfl (by with_unfolding_all rfl)

/-- C10: with no model override and no preference, the cache key names
the primary default model, yet after failover the secondary generates
with its own default model and its output is cached under that key — the
cached text was produced by a model other than the one in its key. -/
theorem c10_failover_uses_own_default_model :
    ∀ (env : Env) (b : TokenBucket) (now : ℚ) (prompt task r : String),
      env.cachePutRaises = false →
      cacheGetResult env (_cache_key prompt task env.GEMINI_MODEL) = none →
      (attempt env now (wrappedPrompt prompt task) none "gemini" b).res = .error () →
      (attempt env now (wrappedPrompt prompt task) none "groq"
        (attempt env now (wrappedPrompt prompt task) none "gemini" b).bucket).res =
          .ok r →
      env.GEMINI_MODEL ≠ env.GROQ_MODEL →
      (call_llm_router env b now prompt task false none none).text = r ∧
      cacheLookup (call_llm_router env b now prompt task false none none).cache
        (_cache_key prompt task env.GEMINI_MODEL) = some r ∧
      ∃ req, Event.groqCall req ∈
          (call_llm_router env b now prompt task false none none).events ∧
        req.model = env.GROQ_MODEL ∧ req.model ≠ env.GEMINI_MODEL := by
  intro env b now prompt task r hput hmiss h₁ h₂ hne
  have hres : resolvedModel env none none = env.GEMINI_MODEL := rfl
  rw [call_llm_router]
  simp only [Bool.false_eq_true, if_false, hres, hmiss]
  have hord : providerOrdering none = ["gemini", "groq"] := rfl
  rw [hord, tryProviders_cons_fail _ _ _ _ _ _ _ _ _ h₁,
      tryProviders_cons_ok _ _ _ _ _ _ _ _ _ _ h₂ hput]
  refine ⟨rfl, by simp [cacheLookup], ?_⟩
  refine ⟨groqRequest (wrappedPrompt prompt task) env.GROQ_MODEL, ?_, rfl, ?_⟩
  · have hev := attempt_ok_events env now (wrappedPrompt prompt task) none "groq" _ h₂
    simp only [if_neg (by decide : ¬("groq" : String) = "gemini")] at hev
    simp [hev, pyOr]
  · intro hx
    exact hne (by rw [← hx]; rfl)

theorem c10_witness :
    { envBothOk with geminiConfigured := false }.cachePutRaises = false ∧
    (call_llm_router { envBothOk with geminiConfigured := false }
      (TokenBucket.init 60 0) 0 "p" "general" false none none).text = "Q" ∧
    cacheLookup (call_llm_router { envBothOk with geminiConfigured := false }
        (TokenBucket.init 60 0) 0 "p" "general" false none none).cache
      (_cache_key "p" "general"
        { envBothOk with geminiConfigured := false }.GEMINI_MODEL) = some "Q" ∧
    ∃ req, Event.groqCall req ∈
        (call_llm_router { envBothOk with geminiConfigured := false }
          (TokenBucket.init 60 0) 0 "p" "general" false none none).events ∧
      req.model = { envBothOk with geminiConfigured := false }.GROQ_MODEL ∧
      req.model ≠ { envBothOk with geminiConfigured := false }.GEMINI_MODEL := by
  refine ⟨rfl, ?_⟩
  have h := c10_failover_uses_own_default_model
    { envBothOk with geminiConfigured := false } (TokenBucket.init 60 0) 0 "p" "general"
    "Q" rfl rfl rfl (by with_unfolding_all rfl) (by decide)
  exact ⟨h.1, h.2.1, h.2.2⟩

/-- C1: the cache write after a successful provider invocation sits
inside the same `try` block as the invocation itself, so a raising store
on `put` is caught by the provider-failure handler: the successful
result is discarded and failover continues.  With both remotes healthy
and only the cache write raising, both providers get invoked and the
router returns the sentinel, whereas the identical run with a writable
store returns the text of the first provider. -/
theorem c1_cache_put_error_discards_result :
    (call_llm_router { envBothOk with cachePutRaises := true }
      (TokenBucket.init 60 0) 0 "p" "general" false none none).text = "SYSTEM OVERLOAD" ∧
    Event.geminiCall "p" "gemini-2.5-flash" ∈
      (call_llm_router { envBothOk with cachePutRaises := true }
        (TokenBucket.init 60 0) 0 "p" "general" false none none).events ∧
    Event.groqCall (groqRequest "p" "llama-3.1-8b-instant") ∈
      (call_llm_router { envBothOk with cachePutRaises := true }
        (TokenBucket.init 60 0) 0 "p" "general" false none none).events ∧
    (call_llm_router envBothOk
      (TokenBucket.init 60 0) 0 "p" "general" false none none).text = "G" := by
  refine ⟨?_, ?_, ?_, ?_⟩ <;> with_unfolding_all decide

end LlmAdapter
